import Mathlib

/-!
Verification of the build-environment orchestrator of
`readthedocs/doc_builder/environments.py`: command output sanitization,
the command recording policy, the build-level success/failure state
machine, and the Docker container provisioning/teardown protocol.

Python dictionaries, byte strings and exceptions are embedded as Lean
structures, `List` values and an explicit exception type; external
collaborators (the container engine, the tracking API) appear as oracle
parameters describing the outcome of each call.
-/

deriving instance DecidableEq for Except

namespace BuildEnvironments

/-- NUL character; stripped from command output before persisting. -/
def nulChar : Char := Char.ofNat 0

/-- Unicode replacement character produced by lenient UTF-8 decoding. -/
def replacementChar : Char := Char.ofNat 0xFFFD

/-- True for UTF-8 continuation bytes (`0x80..0xBF`). -/
def isContByte (b : Nat) : Bool := 0x80 ≤ b && b ≤ 0xBF

/-- Helper for `utf8DecodeReplace`; the fuel argument bounds the number of
bytes still to be consumed, keeping the recursion structural. -/
def utf8DecodeGo : Nat → List Nat → List Char
  | 0, _ => []
  | _ + 1, [] => []
  | fuel + 1, b :: rest =>
    if b < 0x80 then Char.ofNat b :: utf8DecodeGo fuel rest
    else if 0xC2 ≤ b ∧ b ≤ 0xDF then
      match rest with
      | c1 :: rest1 =>
        if isContByte c1 then
          Char.ofNat ((b - 0xC0) * 0x40 + (c1 - 0x80)) :: utf8DecodeGo fuel rest1
        else replacementChar :: utf8DecodeGo fuel rest
      | [] => [replacementChar]
    else if 0xE0 ≤ b ∧ b ≤ 0xEF then
      match rest with
      | c1 :: c2 :: rest2 =>
        if isContByte c1 && isContByte c2
            && !(b == 0xE0 && c1 < 0xA0) && !(b == 0xED && 0xA0 ≤ c1) then
          Char.ofNat ((b - 0xE0) * 0x1000 + (c1 - 0x80) * 0x40 + (c2 - 0x80))
            :: utf8DecodeGo fuel rest2
        else replacementChar :: utf8DecodeGo fuel rest
      | _ => replacementChar :: utf8DecodeGo fuel rest
    else if 0xF0 ≤ b ∧ b ≤ 0xF4 then
      match rest with
      | c1 :: c2 :: c3 :: rest3 =>
        if isContByte c1 && isContByte c2 && isContByte c3
            && !(b == 0xF0 && c1 < 0x90) && !(b == 0xF4 && 0x8F < c1) then
          Char.ofNat
              ((b - 0xF0) * 0x40000 + (c1 - 0x80) * 0x1000
                + (c2 - 0x80) * 0x40 + (c3 - 0x80))
            :: utf8DecodeGo fuel rest3
        else replacementChar :: utf8DecodeGo fuel rest
      | _ => replacementChar :: utf8DecodeGo fuel rest
    else replacementChar :: utf8DecodeGo fuel rest

/-- Model of the external Python call `bytes.decode("utf-8", "replace")`
used by `BuildCommand.sanitize_output`: standard UTF-8 decoding where an
ill-formed byte is decoded as U+FFFD. -/
def utf8DecodeReplace (bs : List Nat) : List Char := utf8DecodeGo bs.length bs

/-- UTF-8 encoded byte length of one character. -/
def utf8CharLen (c : Char) : Nat :=
  if c.toNat < 0x80 then 1
  else if c.toNat < 0x800 then 2
  else if c.toNat < 0x10000 then 3
  else 4

/-- UTF-8 encoded byte length of a decoded string. -/
def utf8Len (s : List Char) : Nat := (s.map utf8CharLen).foldl (· + ·) 0

/-- Python slice `s[start:]`; a negative `start` counts from the end, and
out-of-range starts saturate. -/
def pySliceFrom (s : List Char) (start : Int) : List Char :=
  if start < 0 then s.drop ((s.length : Int) + start).toNat
  else s.drop start.toNat

/-- Helper for `pySplitlines`: `cur` holds the current line reversed. -/
def pySplitlinesAux (cur : List Char) : List Char → List (List Char)
  | [] => if cur.isEmpty then [] else [cur.reverse]
  | c :: rest =>
    if c = Char.ofNat 10 then cur.reverse :: pySplitlinesAux [] rest
    else pySplitlinesAux (c :: cur) rest

/-- Python `str.splitlines()` restricted to the `\n` separator (the only
separator relevant to captured command output): every newline terminates a
line, and a trailing newline does not open a final empty line. -/
def pySplitlines (s : List Char) : List (List Char) := pySplitlinesAux [] s

/-- Does `hay` start with `needle`? -/
def seqStartsWith : List Char → List Char → Bool
  | [], _ => true
  | _ :: _, [] => false
  | a :: as, b :: bs => a == b && seqStartsWith as bs

/-- Python's `in` operator on strings: `needle` occurs contiguously in the
second argument. -/
def containsSeq (needle : List Char) : List Char → Bool
  | [] => seqStartsWith needle []
  | c :: rest => seqStartsWith needle (c :: rest) || containsSeq needle rest

/-- Python `"\n".join(lines)`. -/
def joinNewline : List (List Char) → List Char
  | [] => []
  | [l] => l
  | l :: ls => l ++ Char.ofNat 10 :: joinNewline ls

/-- Truncation notice prepended by `BuildCommand.sanitize_output` when the
output exceeds the allowed length; it names the exact byte budget. -/
def truncationNotice (allowed : Int) : List Char :=
  (".. (truncated) ...\n").data
    ++ ("Output is too big. Truncated at ").data
    ++ (toString allowed).data
    ++ (" bytes.\n\n\n").data

/-- `BuildCommand.sanitize_output`: decode the raw bytes as UTF-8 with
replacement, drop NUL characters, and when the raw byte count exceeds
`DATA_UPLOAD_MAX_MEMORY_SIZE - 512 * 1024` keep only the tail of that
budget behind a truncation notice.  `dataUploadMaxMemorySize` stands for
the external Django setting. -/
def sanitize_output (dataUploadMaxMemorySize : Nat) (output : List Nat) : List Char :=
  let sanitized := (utf8DecodeReplace output).filter (fun c => c != nulChar)
  let output_length : Nat := output.length
  let allowed_length : Int := (dataUploadMaxMemorySize : Int) - 512 * 1024
  if (output_length : Int) > allowed_length then
    truncationNotice allowed_length ++ pySliceFrom sanitized (-allowed_length)
  else
    sanitized

/-- Modelled from the spec: the platform OOM sentinel exit code (§4.2); the
constant lives in `doc_builder/constants.py`, outside the provided source. -/
def DOCKER_OOM_EXIT_CODE : Int := 137

/-- Modelled from the spec: the timeout sentinel exit code (§4.5 step 4);
the constant lives in `doc_builder/constants.py`, outside the provided
source. -/
def DOCKER_TIMEOUT_EXIT_CODE : Int := 42

/-- Memory-exhaustion notice appended by `DockerBuildCommand.run`. -/
def oomNotice : List Char :=
  ("\n\nCommand killed due to excessive memory consumption\n").data

/-- Generic message used by `DockerBuildCommand.run` when the engine call
failed and no output was captured. -/
def abnormalExitMsg : List Char := ("Command exited abnormally").data

/-- Killed-token scan of `DockerBuildCommand.run`: the literal `Killed`
occurs in the last 15 lines of the captured output. -/
def killedInLast15 (out : List Char) : Bool :=
  let lines := pySplitlines out
  containsSeq ("Killed").data (joinNewline (lines.drop (lines.length - 15)))

/-- Exception classes relevant to the orchestrator's control flow.
`warningListed` stands for a member of `BuildEnvironment.WARNING_EXCEPTIONS`
(the fixed set of expected build faults); `beError` covers
`BuildEnvironmentError` and its creation-failure subclass; `bewWarning` is
`BuildEnvironmentWarning`; the remaining cases are the engine/transport
exception classes caught at specific call sites. -/
inductive Exc where
  | bewWarning (msg : String)
  | beError (msg : String)
  | warningListed (msg : String)
  | dockerNotFound
  | dockerAPI
  | connectionError
  | readTimeout
  | other (msg : String)
deriving DecidableEq, Repr

/-- Subclass test for `BuildEnvironmentWarning`. -/
def isBEWarningClass : Exc → Bool
  | .bewWarning _ => true
  | _ => false

/-- Exact-type membership in `WARNING_EXCEPTIONS` (the source tests
`exc_type in self.WARNING_EXCEPTIONS`). -/
def isWarningListed : Exc → Bool
  | .warningListed _ => true
  | _ => false

/-- Modelled from the spec (§7): subclass test for `BuildEnvironmentError`.
The exception hierarchy lives in `doc_builder/exceptions.py`, outside the
provided source; per the spec the named expected build faults are
structured environment errors, so they count as subclasses. -/
def isBEErrorClass : Exc → Bool
  | .beError _ => true
  | .warningListed _ => true
  | _ => false

/-- Modelled from the spec (§7): subclass test for
`BuildEnvironmentException`, the common base of the structured error kinds
(`doc_builder/exceptions.py` is outside the provided source). -/
def isBEExceptionClass : Exc → Bool
  | .bewWarning _ => true
  | .beError _ => true
  | .warningListed _ => true
  | _ => false

/-- Subclass test for `docker.errors.APIError`; `NotFound` is its
subclass. -/
def isDockerAPIClass : Exc → Bool
  | .dockerAPI => true
  | .dockerNotFound => true
  | _ => false

/-- Python `str(exc)`: the user-facing text of an exception. -/
def excStr : Exc → String
  | .bewWarning m => m
  | .beError m => m
  | .warningListed m => m
  | .dockerNotFound => "not found"
  | .dockerAPI => "docker api error"
  | .connectionError => "connection error"
  | .readTimeout => "read timeout"
  | .other m => m

/-- Modelled from the spec (§7): structured environment errors carry a
status code (default 1); the concrete codes live in
`doc_builder/exceptions.py`, outside the provided source. -/
def excStatusCode : Exc → Int
  | _ => 1

/-- `DockerBuildCommand.run`, given the engine exec session's combined
result (raw output bytes and engine-reported exit code, or the exception
the engine calls raised): sanitize the output, reinterpret OOM kills by
appending the memory notice (leaving the exit code as reported), and map
a `DockerAPIError` to exit code -1 with the generic abnormal-exit message
when no output was captured.  Returns `(exit_code, output)`. -/
def dockerCmdRun (dataUploadMaxMemorySize : Nat)
    (execRes : Except Exc (List Nat × Int)) :
    Except Exc (Option Int × Option (List Char)) :=
  match execRes with
  | .ok (bytes, code) =>
    let out := sanitize_output dataUploadMaxMemorySize bytes
    if code == DOCKER_OOM_EXIT_CODE || (code == 1 && killedInLast15 out) then
      .ok (some code, some (out ++ oomNotice))
    else .ok (some code, some out)
  | .error e =>
    if isDockerAPIClass e then .ok (some (-1), some abnormalExitMsg)
    else .error e

/-- Modelled from the spec (§4.4): the generic `build failed, see build
<id>` message (`BuildEnvironmentError.GENERIC_WITH_BUILD_ID` lives outside
the provided source). -/
def genericWithBuildId (buildId : Nat) : String :=
  "Build failed, see build " ++ toString buildId

/-- Modelled from the spec (§4.4): the terminal build-record state
(`BUILD_STATE_FINISHED` from `builds/constants.py`, outside the provided
source). -/
def BUILD_STATE_FINISHED : String := "finished"

/-- One recorded command, as appended to `BuildEnvironment.commands`.
`cmdSuccessful`/`cmdFailed` below model `BuildCommandResultMixin`. -/
structure BuildCmd where
  command : String
  exit_code : Option Int := none
  output : Option String := none
  record_as_success : Bool := false
deriving DecidableEq, Repr

/-- Modelled from the spec (§7: command-level failure is a non-zero exit
code): `BuildCommandResultMixin.successful`, `self.exit_code == 0`.  The
mixin lives in `builds/models.py`, outside the provided source. -/
def cmdSuccessful (c : BuildCmd) : Bool := c.exit_code == some 0

/-- Modelled from the spec: `BuildCommandResultMixin.failed`, the inverse
of `successful` (outside the provided source). -/
def cmdFailed (c : BuildCmd) : Bool := !cmdSuccessful c

/-- The mutable build-record dictionary synchronized to the tracking API. -/
structure BuildRecord where
  id : Nat
  state : String
  success : Option Bool := none
  error : String := ""
  exit_code : Option Int := none
  length : Option Int := none
  setup : String := ""
  setup_error : String := ""
  output : String := ""
deriving DecidableEq, Repr

/-- Calls issued to the external tracking API. -/
inductive APICall where
  | postCommand (build : Option Nat) (command : String) (exit_code : Option Int)
  | putBuild (rec : BuildRecord)
deriving DecidableEq, Repr

/-- Is this call a `PUT` of the build record? -/
def isPutBuild : APICall → Bool
  | .putBuild _ => true
  | _ => false

/-- Error text of a `PUT` build call, when it is one. -/
def putErrorOf : APICall → Option String
  | .putBuild r => some r.error
  | _ => none

/-- State of a `BuildEnvironment`: recording policy, the single captured
failure, the ordered recorded-command list and the build record. -/
structure BuildEnvState where
  record : Bool := true
  update_on_success : Bool := true
  failure : Option Exc := none
  commands : List BuildCmd := []
  build : Option BuildRecord := none
deriving DecidableEq, Repr

/-- `BuildEnvironment.done`: the build record exists and is in the
terminal state. -/
def envDone (env : BuildEnvState) : Bool :=
  match env.build with
  | some b => b.state == BUILD_STATE_FINISHED
  | none => false

/-- `BuildEnvironment.successful`: build completed, without top-level
failure or failing commands. -/
def envSuccessful (env : BuildEnvState) : Bool :=
  envDone env && env.failure.isNone && env.commands.all cmdSuccessful

/-- `BuildEnvironment.failed`: build completed, but has a top-level
failure or failing commands. -/
def envFailed (env : BuildEnvState) : Bool :=
  envDone env && (env.failure.isSome || env.commands.any cmdFailed)

/-- `BuildEnvironment.handle_exception`: classify the exception raised
inside the scope.  A `BuildEnvironmentWarning` is only logged; any other
exception is also stored as the failure.  Returns the updated state and
the handler's return value (`True` whenever an exception was handled,
which suppresses re-raising). -/
def handle_exception (env : BuildEnvState) (exc : Option Exc) : BuildEnvState × Bool :=
  match exc with
  | none => (env, false)
  | some e =>
    if isBEWarningClass e then (env, true)
    else ({ env with failure := some e }, true)

/-- Python `max` over the recorded exit codes (`update_build`); every
executed command carries an exit code, since `run` sets one on every
path. -/
def maxExitCode (cmds : List BuildCmd) : Int :=
  match cmds.map (fun c => c.exit_code.getD 0) with
  | [] => 0
  | c :: rest => rest.foldl max c

/-- `BuildEnvironment.update_build`: compute the terminal record fields
and decide whether to `PUT` the record to the tracking API.  `elapsed` is
the externally computed build duration; the result carries the updated
environment and the API calls issued.  (With `record` set, the source
always has a build record; a missing record is returned unchanged.) -/
def update_build (env : BuildEnvState) (st : String) (elapsed : Int) :
    BuildEnvState × List APICall :=
  if !env.record then (env, [])
  else
    match env.build with
    | none => (env, [])
    | some b0 =>
      let b1 : BuildRecord := { b0 with state := st }
      let env1 : BuildEnvState := { env with build := some b1 }
      let isDone := envDone env1
      let b2 : BuildRecord :=
        if isDone then
          let bs : BuildRecord := { b1 with success := some (envSuccessful env1) }
          match env1.failure with
          | some f =>
            if isBEExceptionClass f then { bs with exit_code := some (excStatusCode f) }
            else if !env1.commands.isEmpty then
              { bs with exit_code := some (maxExitCode env1.commands) }
            else bs
          | none =>
            if !env1.commands.isEmpty then
              { bs with exit_code := some (maxExitCode env1.commands) }
            else bs
        else b1
      let b3 : BuildRecord :=
        { b2 with setup := "", setup_error := "", output := "", error := ""
                , length := some elapsed }
      let failure2 : Option Exc :=
        match env1.failure with
        | none => none
        | some f =>
          if isBEExceptionClass f then some f
          else some (.beError (genericWithBuildId b1.id))
      let b4 : BuildRecord :=
        match failure2 with
        | none => b3
        | some f => { b3 with error := excStr f }
      let envFin : BuildEnvState := { env1 with failure := failure2, build := some b4 }
      let doUpdate :=
        !envDone envFin || (envDone envFin && !envSuccessful envFin)
          || env.update_on_success
      (envFin, if doUpdate then [APICall.putBuild b4] else [])

/-- `BuildEnvironment.__exit__`: handle any exception raised in the scope,
then push the terminal record.  Returns the final state, the value
returned to the `with` statement (`true` suppresses the exception) and
the API calls issued. -/
def buildEnvExit (env : BuildEnvState) (exc : Option Exc) (elapsed : Int) :
    BuildEnvState × Bool × List APICall :=
  let (env1, handled) := handle_exception env exc
  let (env2, calls) := update_build env1 BUILD_STATE_FINISHED elapsed
  (env2, handled, calls)

/-- Outcome of one command execution (`BuildCommand.run` /
`DockerBuildCommand.run` have already stored these fields). -/
structure RunOutcome where
  exit_code : Option Int := none
  output : Option String := none
deriving DecidableEq, Repr

/-- Result of `BaseEnvironment.run_command_class` on a `BuildEnvironment`:
the updated environment, the command object after any save-time mutation,
the exception raised (if the command failed fatally), the tracking-API
calls, and the effective record/warn-only policy computed from the
arguments. -/
structure RunCmdResult where
  env : BuildEnvState
  cmd : BuildCmd
  raised : Option Exc
  calls : List APICall
  effRecord : Bool
  effWarnOnly : Bool
deriving DecidableEq, Repr

/-- `BaseEnvironment.run_command_class` as called on a `BuildEnvironment`
(`record_command` persists via `BuildCommand.save`): compute the effective
record/warn-only policy, persist and append the command when recording,
and raise `BuildEnvironmentWarning` when the command failed and the
policy is not warn-only.  `save` overwrites the exit code with 0 first
when `record_as_success` is set, and the append and the failure check
both see that mutation. -/
def run_command_class (env : BuildEnvState) (cmdStr : String) (outcome : RunOutcome)
    (record? : Option Bool) (warn_only0 : Bool) (record_as_success : Bool) :
    RunCmdResult :=
  let record := record?.getD env.record
  let warn_only := if !record then true else warn_only0
  let record := if record_as_success then true else record
  let warn_only := if record_as_success then true else warn_only
  let cmd0 : BuildCmd :=
    { command := cmdStr, exit_code := outcome.exit_code
    , output := outcome.output, record_as_success := record_as_success }
  let cmd1 : BuildCmd :=
    if record && record_as_success then { cmd0 with exit_code := some 0 } else cmd0
  let (env1, calls) :=
    if record then
      ({ env with commands := env.commands ++ [cmd1] }
      , [APICall.postCommand (env.build.map BuildRecord.id) cmdStr cmd1.exit_code])
    else (env, [])
  let raised : Option Exc :=
    if cmdFailed cmd1 then
      if warn_only then none
      else
        let msg := "Command " ++ cmdStr ++ " failed"
        let msg :=
          match cmd1.output with
          | some o => if o ≠ "" then msg ++ ":\n" ++ o else msg
          | none => msg
        some (.bewWarning msg)
    else none
  { env := env1, cmd := cmd1, raised := raised, calls := calls
  , effRecord := record, effWarnOnly := warn_only }

/-- Container `State` dictionary as reported by the engine's inspect
call; absent keys are `none`/defaults (`state.get(...)`). -/
structure ContainerState where
  Running : Option Bool := none
  ExitCode : Option Int := none
  OOMKilled : Bool := false
  Error : String := ""
deriving DecidableEq, Repr

/-- `DockerBuildEnvironment.update_build_from_container_state`, factored
over the already-fetched container state: when the container is reported
not running, derive a failure from the timeout sentinel, the OOM flag or
the engine error string. -/
def update_build_from_container_state (failure : Option Exc)
    (state : Option ContainerState) : Option Exc :=
  match state with
  | none => failure
  | some st =>
    if st.Running = some false then
      if st.ExitCode = some DOCKER_TIMEOUT_EXIT_CODE then
        some (.beError "Build exited due to time out")
      else if st.OOMKilled then
        some (.beError "Build exited due to excessive memory consumption")
      else if st.Error ≠ "" then
        some (.beError ("Build exited due to unknown error: " ++ st.Error))
      else failure
    else failure

/-- `DockerBuildEnvironment.container_state`: the raw inspect call result
(`raw`), with `DockerAPIError` (including `NotFound`) converted to `None`
and any other exception propagated. -/
def containerStateModel (raw : Except Exc ContainerState) :
    Except Exc (Option ContainerState) :=
  match raw with
  | .ok st => .ok (some st)
  | .error e => if isDockerAPIClass e then .ok none else .error e

/-- Oracle for the engine calls performed during Docker scope exit: the
inspect underlying `container_state`, the `get_client` call, and the
kill/remove steps. -/
structure TeardownBehavior where
  inspect : Except Exc ContainerState
  clientOk : Except Exc Unit
  kill : Except Exc Unit
  remove : Except Exc Unit
deriving DecidableEq, Repr

/-- Teardown-step error handling shared by every failure point of
`DockerBuildEnvironment.__exit__`: a `BuildEnvironmentError` is caught and
adopted as the scope exception only when none was incoming, then the base
`__exit__` runs; any other class propagates out of the scope exit. -/
def tearHandleErr (env : BuildEnvState) (e : Exc) (excIn : Option Exc)
    (elapsed : Int) : Except Exc (BuildEnvState × Bool × List APICall) :=
  if isBEErrorClass e then
    .ok (buildEnvExit env (if excIn.isNone then some e else excIn) elapsed)
  else .error e

/-- Teardown steps of `DockerBuildEnvironment.__exit__` after the
container-state reconciliation: `get_client`, kill (catching
`NotFound`/`APIError`), remove (catching those plus connection and
read-timeout errors), then the base `__exit__`. -/
def dockerExitRest (env : BuildEnvState) (beh : TeardownBehavior)
    (excIn : Option Exc) (elapsed : Int) :
    Except Exc (BuildEnvState × Bool × List APICall) :=
  match beh.clientOk with
  | .error e => tearHandleErr env e excIn elapsed
  | .ok _ =>
    let killErr : Option Exc :=
      match beh.kill with
      | .ok _ => none
      | .error e => if isDockerAPIClass e then none else some e
    match killErr with
    | some e => tearHandleErr env e excIn elapsed
    | none =>
      let removeErr : Option Exc :=
        match beh.remove with
        | .ok _ => none
        | .error e =>
          if isDockerAPIClass e || e == .connectionError || e == .readTimeout then
            none
          else some e
      match removeErr with
      | some e => tearHandleErr env e excIn elapsed
      | none => .ok (buildEnvExit env excIn elapsed)

/-- `DockerBuildEnvironment.__exit__`: reconcile the failure from the live
container state, kill and remove the container (tolerating the engine
error classes each step catches), then delegate to the base `__exit__`.
An uncaught exception from a teardown step propagates (`.error`). -/
def dockerExitModel (env : BuildEnvState) (beh : TeardownBehavior)
    (excIn : Option Exc) (elapsed : Int) :
    Except Exc (BuildEnvState × Bool × List APICall) :=
  match containerStateModel beh.inspect with
  | .error e => tearHandleErr env e excIn elapsed
  | .ok st =>
    dockerExitRest
      { env with failure := update_build_from_container_state env.failure st }
      beh excIn elapsed

/-- The hard lock-contention error raised on scope entry when a container
with the derived name is still running. -/
def lockContentionExc : Exc :=
  .beError "A build environment is currently running for this version"

/-- Oracle for the engine calls performed during Docker scope entry: the
inspect underlying the sanity `container_state`, the stale-container
removal, the raw create/start call, and the teardown behavior for the
`__exit__` invoked on entry failure. -/
structure EnterBehavior where
  inspect : Except Exc ContainerState
  removeStale : Except Exc Unit
  createRaw : Except Exc Unit
  tear : TeardownBehavior
deriving DecidableEq, Repr

/-- `DockerBuildEnvironment.create_container`: a `ConnectionError` is
replaced by the generic build error, a `DockerAPIError` by the
creation-failed environment error; other outcomes pass through. -/
def createContainerModel (buildId : Option Nat) (raw : Except Exc Unit) :
    Except Exc Unit :=
  match raw with
  | .ok _ => .ok ()
  | .error e =>
    if e == .connectionError then
      .error (.beError (genericWithBuildId (buildId.getD 0)))
    else if isDockerAPIClass e then
      .error (.beError "Build environment creation failed")
    else .error e

/-- Entry-failure pattern of `DockerBuildEnvironment.__enter__`: run the
scope exit with the current exception, then re-raise it (or whatever the
exit itself raised).  Returns the propagated exception and the API calls
issued by the exit. -/
def enterExitReraise (env : BuildEnvState) (tear : TeardownBehavior) (e : Exc)
    (elapsed : Int) : Except Exc BuildEnvState × List APICall :=
  match dockerExitModel env tear (some e) elapsed with
  | .ok (_, _, calls) => (.error e, calls)
  | .error e2 => (.error e2, [])

/-- Provisioning step of `DockerBuildEnvironment.__enter__` (reached after
the sanity check): call `create_container`; on any failure run the scope
exit and re-raise.  The `Bool` records that the create step was called. -/
def enterCreateStep (env : BuildEnvState) (beh : EnterBehavior) (elapsed : Int) :
    Except Exc BuildEnvState × Bool × List APICall :=
  match createContainerModel (env.build.map BuildRecord.id) beh.createRaw with
  | .ok _ => (.ok env, true, [])
  | .error e =>
    let (r, calls) := enterExitReraise env beh.tear e elapsed
    (r, true, calls)

/-- Stale-container removal of `__enter__`: engine/connection errors are
swallowed by the surrounding sanity-check handler (provisioning is still
reached); a `BuildEnvironmentError` runs the scope exit and re-raises;
any other exception propagates. -/
def staleRemovalStep (env : BuildEnvState) (beh : EnterBehavior) (elapsed : Int) :
    Except Exc Unit → Except Exc BuildEnvState × Bool × List APICall
  | .ok _ => enterCreateStep env beh elapsed
  | .error e =>
    if isDockerAPIClass e || e == .connectionError then
      enterCreateStep env beh elapsed
    else if isBEErrorClass e then
      let (r, calls) := enterExitReraise env beh.tear e elapsed
      (r, false, calls)
    else (.error e, false, [])

/-- `DockerBuildEnvironment.__enter__`: query any existing container with
the derived name; a running one raises the hard lock-contention error
(storing it as the failure and finishing the build record) without ever
provisioning; a stopped one is removed best-effort with engine/connection
errors swallowed; then the new container is created.  The `Bool` records
whether the create step was called. -/
def dockerEnterModel (env : BuildEnvState) (beh : EnterBehavior) (elapsed : Int) :
    Except Exc BuildEnvState × Bool × List APICall :=
  match containerStateModel beh.inspect with
  | .error e =>
    if e == .connectionError then enterCreateStep env beh elapsed
    else if isBEErrorClass e then
      let (r, calls) := enterExitReraise env beh.tear e elapsed
      (r, false, calls)
    else (.error e, false, [])
  | .ok none => enterCreateStep env beh elapsed
  | .ok (some st) =>
    if st.Running == some true then
      let env1 : BuildEnvState :=
        { env with failure := some lockContentionExc
                 , build := env.build.map (fun b => { b with state := BUILD_STATE_FINISHED }) }
      let (r, calls) := enterExitReraise env1 beh.tear lockContentionExc elapsed
      (r, false, calls)
    else staleRemovalStep env beh elapsed beh.removeStale

/-- Project attributes read by `DockerBuildEnvironment.__init__`:
the testing-image feature flag and the per-project manual overrides. -/
structure ProjectInfo where
  has_testing_feature : Bool := false
  container_image : Option String := none
  container_mem_limit : Option String := none
  container_time_limit : Option Int := none
deriving DecidableEq, Repr

/-- The per-build configuration object (`self.config`). -/
structure BuildConfig where
  docker_image : Option String := none
deriving DecidableEq, Repr

/-- Image resolution of `DockerBuildEnvironment.__init__`: starting from
the environment default, each truthy source in turn overwrites the image
(feature flag, then per-build config, then per-project override). -/
def resolveContainerImage (defaultImage : String) (project : ProjectInfo)
    (config : Option BuildConfig) : String :=
  let image := defaultImage
  let image := if project.has_testing_feature then "readthedocs/build:testing" else image
  let image :=
    match config with
    | some c =>
      match c.docker_image with
      | some di => di
      | none => image
    | none => image
  match project.container_image with
  | some pimg => pimg
  | none => image

/-- Memory-limit resolution of `DockerBuildEnvironment.__init__`: the
project override beats the environment default. -/
def resolveMemLimit (defaultLimit : Option String) (project : ProjectInfo) :
    Option String :=
  match project.container_mem_limit with
  | some m => some m
  | none => defaultLimit

/-- Time-limit resolution of `DockerBuildEnvironment.__init__`: the
project override beats the environment default. -/
def resolveTimeLimit (defaultLimit : Option Int) (project : ProjectInfo) :
    Option Int :=
  match project.container_time_limit with
  | some t => some t
  | none => defaultLimit

/-- Environment-variable dictionaries for the mutation model: an
association list of variable/value pairs. -/
abbrev EnvDict := List (String × String)

/-- Lookup in an association list (Python `d.get(k)`). -/
def dictGet (d : EnvDict) (k : String) : Option String :=
  match d.find? (fun p => p.fst == k) with
  | some p => some p.snd
  | none => none

/-- Removal from an association list (Python `del d[k]` / `d.pop(k)`). -/
def dictErase (d : EnvDict) (k : String) : EnvDict :=
  d.filter (fun p => p.fst != k)

/-- Insertion/overwrite in an association list (Python `d[k] = v`). -/
def dictSet (d : EnvDict) (k v : String) : EnvDict :=
  dictErase d k ++ [(k, v)]

/-- Heap of Python dictionary objects, so that aliasing and in-place
mutation are observable: references below `next` are allocated. -/
structure Heap where
  mem : Nat → EnvDict
  next : Nat

/-- Dictionary held at reference `r`. -/
def Heap.read (h : Heap) (r : Nat) : EnvDict := h.mem r

/-- In-place update of the dictionary at `r`. -/
def Heap.write (h : Heap) (r : Nat) (d : EnvDict) : Heap :=
  { h with mem := fun x => if x = r then d else h.mem x }

/-- Allocation of a fresh dictionary (Python `dict.copy()` allocates). -/
def Heap.alloc (h : Heap) (d : EnvDict) : Heap × Nat :=
  ({ mem := fun x => if x = h.next then d else h.mem x, next := h.next + 1 }, h.next)

/-- Environment handling of `run_command_class` (lines 424-431): copy the
environment's shared mapping, pop `BIN_PATH` from the copy, and pass the
copy on as the command's `environment` argument.  Returns the heap, the
reference passed on, and the popped bin path. -/
def runCommandClassEnvPrep (h : Heap) (sharedRef : Nat) :
    Heap × Nat × Option String :=
  let (h1, copyRef) := h.alloc (h.read sharedRef)
  let d := h1.read copyRef
  let env_path := dictGet d "BIN_PATH"
  let h2 := h1.write copyRef (dictErase d "BIN_PATH")
  (h2, copyRef, env_path)

/-- `BuildCommand.__init__` environment handling: store a copy of the
supplied mapping, rejecting a caller-supplied `PATH` (the copy holds the
same entries, so the membership test reads the copied value).  Returns
the heap and the reference stored as `self._environment` (or `none` for
the raised `BuildEnvironmentError`). -/
def buildCommandInitEnv (h : Heap) (envArgRef : Nat) : Heap × Option Nat :=
  let d := h.read envArgRef
  let (h1, storedRef) := h.alloc d
  if (dictGet d "PATH").isSome then (h1, none)
  else (h1, some storedRef)

/-- `BuildCommand.run` environment handling: copy the stored mapping,
strip the two internal variables, and inject the computed `PATH` (host
path with the bin path prepended) into the copy only. -/
def buildCommandRunEnv (h : Heap) (storedRef : Nat) (bin_path : Option String)
    (hostPATH : String) : Heap × Nat :=
  let (h1, r) := h.alloc (h.read storedRef)
  let d := dictErase (h1.read r) "DJANGO_SETTINGS_MODULE"
  let d := dictErase d "PYTHONPATH"
  let pathValue :=
    match bin_path with
    | some bp => bp ++ ":" ++ hostPATH
    | none => hostPATH
  (h1.write r (dictSet d "PATH" pathValue), r)

/-- The full environment-variable flow of one recorded run: the
`run_command_class` copy-and-pop, the constructor copy, and the execution
copy with stripping and `PATH` injection.  `sharedRef` is both the
environment's shared mapping and the caller's mapping
(`BaseEnvironment.__init__` aliases them). -/
def commandEnvPipeline (h : Heap) (sharedRef : Nat) (hostPATH : String) : Heap :=
  match (buildCommandInitEnv (runCommandClassEnvPrep h sharedRef).1
      (runCommandClassEnvPrep h sharedRef).2.1).2 with
  | none =>
    (buildCommandInitEnv (runCommandClassEnvPrep h sharedRef).1
      (runCommandClassEnvPrep h sharedRef).2.1).1
  | some storedRef =>
    (buildCommandRunEnv
      (buildCommandInitEnv (runCommandClassEnvPrep h sharedRef).1
        (runCommandClassEnvPrep h sharedRef).2.1).1
      storedRef (runCommandClassEnvPrep h sharedRef).2.2 hostPATH).1

/-- Concrete environment for the two-command scenario: default policy
(record on, update-on-success on), an open build record. -/
def scenarioEnv0 : BuildEnvState :=
  { record := true, update_on_success := true, failure := none, commands := []
  , build := some { id := 99, state := "building" } }

/-- First scenario command: exits 0. -/
def scenarioStep1 : RunCmdResult :=
  run_command_class scenarioEnv0 "echo ok" { exit_code := some 0, output := some "ok\n" }
    none false false

/-- Second scenario command: exits 2, raising the environment warning
that unwinds to the scope exit. -/
def scenarioStep2 : RunCmdResult :=
  run_command_class scenarioStep1.env "make html"
    { exit_code := some 2, output := some "boom\n" } none false false

/-- Scope exit of the scenario, fed the warning raised by the second
command. -/
def scenarioExit : BuildEnvState × Bool × List APICall :=
  buildEnvExit scenarioStep2.env scenarioStep2.raised 12

/-- Final environment state of the two-command scenario. -/
def scenarioFinalEnv : BuildEnvState := scenarioExit.fst

/-- All tracking-API calls issued during the two-command scenario. -/
def scenarioCalls : List APICall :=
  scenarioStep1.calls ++ scenarioStep2.calls ++ scenarioExit.snd.snd

/-- The engine-call outcomes whose exception classes the teardown steps of
`DockerBuildEnvironment.__exit__` catch: `DockerAPIError` from the
inspect, `BuildEnvironmentError` from client creation, `NotFound`/
`APIError` from kill, those plus connection/read-timeout from remove. -/
def tearBenign (beh : TeardownBehavior) : Bool :=
  (match beh.inspect with
   | .ok _ => true
   | .error e => isDockerAPIClass e || isBEErrorClass e)
  && (match beh.clientOk with
      | .ok _ => true
      | .error e => isBEErrorClass e)
  && (match beh.kill with
      | .ok _ => true
      | .error e => isDockerAPIClass e)
  && (match beh.remove with
      | .ok _ => true
      | .error e => isDockerAPIClass e || e == .connectionError || e == .readTimeout)

/-- Stale-container removal failed with one of the engine/connection
error classes swallowed by the sanity check of `__enter__`. -/
def staleRemoveEngineErr : Except Exc Unit → Bool
  | .error e => isDockerAPIClass e || e == .connectionError
  | .ok _ => false

/-- The `__exit__` return value of a completed Docker scope exit (`none`
when the exit itself propagated an exception). -/
def exitHandled : Except Exc (BuildEnvState × Bool × List APICall) → Option Bool
  | .ok (_, h, _) => some h
  | .error _ => none

/-- The `docker_image` attribute of an optional config object, through the
truthiness test `self.config and self.config.docker_image`. -/
def configDockerImage : Option BuildConfig → Option String
  | some c => c.docker_image
  | none => none

/-- A teardown in which every engine call succeeds. -/
def tearAllOk : TeardownBehavior :=
  { inspect := .ok {}, clientOk := .ok (), kill := .ok (), remove := .ok () }

/-- Scope entry against a container reported as still running, with an
otherwise healthy engine. -/
def enterBehRunning : EnterBehavior :=
  { inspect := .ok { Running := some true }, removeStale := .ok ()
  , createRaw := .ok (), tear := tearAllOk }

/-- A one-dictionary heap: reference 0 holds the caller's mapping (aliased
as the environment's shared mapping). -/
def c10Heap : Heap :=
  { mem := fun x => if x = 0 then [("A", "1"), ("BIN_PATH", "/bp")] else []
  , next := 1 }

/-- Decimal digit characters are never NUL. -/
theorem digitChar_ne_nul (n : Nat) : Nat.digitChar n ≠ nulChar := by
  rcases Nat.lt_or_ge n 16 with h | h
  · interval_cases n <;> decide
  · simp only [Nat.digitChar,
      if_neg (by omega : ¬ n = 0), if_neg (by omega : ¬ n = 1),
      if_neg (by omega : ¬ n = 2), if_neg (by omega : ¬ n = 3),
      if_neg (by omega : ¬ n = 4), if_neg (by omega : ¬ n = 5),
      if_neg (by omega : ¬ n = 6), if_neg (by omega : ¬ n = 7),
      if_neg (by omega : ¬ n = 8), if_neg (by omega : ¬ n = 9),
      if_neg (by omega : ¬ n = 10), if_neg (by omega : ¬ n = 11),
      if_neg (by omega : ¬ n = 12), if_neg (by omega : ¬ n = 13),
      if_neg (by omega : ¬ n = 14), if_neg (by omega : ¬ n = 15)]
    decide

/-- Digit accumulation never introduces a NUL character. -/
theorem toDigitsCore_ne_nul (b : Nat) :
    ∀ fuel n acc, (∀ c ∈ acc, c ≠ nulChar) →
      ∀ c ∈ Nat.toDigitsCore b fuel n acc, c ≠ nulChar := by
  intro fuel
  induction fuel with
  | zero =>
    intro n acc hacc c hc
    exact hacc c (by simpa [Nat.toDigitsCore] using hc)
  | succ fuel ih =>
    intro n acc hacc c hc
    unfold Nat.toDigitsCore at hc
    have haccd : ∀ x ∈ Nat.digitChar (n % b) :: acc, x ≠ nulChar := by
      intro x hx
      rcases List.mem_cons.mp hx with h | h
      · exact h ▸ digitChar_ne_nul _
      · exact hacc x h
    simp only at hc
    split at hc
    · exact haccd c hc
    · exact ih _ _ haccd c hc

/-- Decimal representations of naturals contain no NUL character. -/
theorem natRepr_ne_nul (n : Nat) : ∀ c ∈ (Nat.repr n).data, c ≠ nulChar := by
  intro c hc
  have h : (Nat.repr n).data = Nat.toDigits 10 n := rfl
  rw [h] at hc
  exact toDigitsCore_ne_nul 10 (n + 1) n [] (by simp) c hc

/-- Decimal representations of integers contain no NUL character. -/
theorem intToString_ne_nul (a : Int) : ∀ c ∈ (toString a).data, c ≠ nulChar := by
  cases a with
  | ofNat m =>
    intro c hc
    have h : toString (Int.ofNat m) = Nat.repr m := rfl
    rw [h] at hc
    exact natRepr_ne_nul m c hc
  | negSucc m =>
    intro c hc
    have h : toString (Int.negSucc m) = "-" ++ Nat.repr (m + 1) := rfl
    rw [h, String.data_append] at hc
    rcases List.mem_append.mp hc with h1 | h1
    · exact (by decide : ∀ x ∈ ("-").data, x ≠ nulChar) c h1
    · exact natRepr_ne_nul (m + 1) c h1

/-- The truncation notice contains no NUL character, whatever budget it
names. -/
theorem truncationNotice_ne_nul (a : Int) : ∀ c ∈ truncationNotice a, c ≠ nulChar := by
  intro c hc
  unfold truncationNotice at hc
  simp only [List.append_assoc, List.mem_append] at hc
  rcases hc with h | h | h | h
  · exact (by decide : ∀ x ∈ (".. (truncated) ...\n").data, x ≠ nulChar) c h
  · exact (by decide : ∀ x ∈ ("Output is too big. Truncated at ").data, x ≠ nulChar) c h
  · exact intToString_ne_nul a c h
  · exact (by decide : ∀ x ∈ (" bytes.\n\n\n").data, x ≠ nulChar) c h

/-- NUL filtering is complete. -/
theorem filter_ne_nul (l : List Char) :
    ∀ c ∈ l.filter (fun c => c != nulChar), c ≠ nulChar := by
  intro c hc
  have h := List.mem_filter.mp hc
  simpa using h.2

/-- C1 (counterexample): `update_build_from_container_state` is claimed to
set the stored failure only if none was previously captured; on a stopped
container with the timeout sentinel the code overwrites an
already-captured failure. -/
theorem c1_reconcile_overwrites_counterexample :
    update_build_from_container_state (some (.beError "Command failed earlier"))
        (some { Running := some false, ExitCode := some DOCKER_TIMEOUT_EXIT_CODE })
      ≠ some (.beError "Command failed earlier")
    ∧ update_build_from_container_state (some (.beError "Command failed earlier"))
        (some { Running := some false, ExitCode := some DOCKER_TIMEOUT_EXIT_CODE })
      = some (.beError "Build exited due to time out") := by decide

/-- C1 (amended): the container-state reconciliation sets the stored
failure from the container's reported state (timeout sentinel, OOM flag,
engine error string) whenever the container is reported stopped with such
an indication, overwriting any previously captured failure; the prior
failure is preserved exactly when no such condition is reported. -/
theorem c1_reconcile_amended (failure : Option Exc) (st : ContainerState) :
    (update_build_from_container_state failure none = failure)
    ∧ (st.Running ≠ some false →
        update_build_from_container_state failure (some st) = failure)
    ∧ (st.Running = some false → st.ExitCode = some DOCKER_TIMEOUT_EXIT_CODE →
        update_build_from_container_state failure (some st)
          = some (.beError "Build exited due to time out"))
    ∧ (st.Running = some false → st.ExitCode ≠ some DOCKER_TIMEOUT_EXIT_CODE →
        st.OOMKilled = true →
        update_build_from_container_state failure (some st)
          = some (.beError "Build exited due to excessive memory consumption"))
    ∧ (st.Running = some false → st.ExitCode ≠ some DOCKER_TIMEOUT_EXIT_CODE →
        st.OOMKilled = false → st.Error ≠ "" →
        update_build_from_container_state failure (some st)
          = some (.beError ("Build exited due to unknown error: " ++ st.Error)))
    ∧ (st.Running = some false → st.ExitCode ≠ some DOCKER_TIMEOUT_EXIT_CODE →
        st.OOMKilled = false → st.Error = "" →
        update_build_from_container_state failure (some st) = failure) := by
  refine ⟨rfl, ?_, ?_, ?_, ?_, ?_⟩
  · intro h1
    simp [update_build_from_container_state, h1]
  · intro h1 h2
    simp [update_build_from_container_state, h1, h2]
  · intro h1 h2 h3
    simp [update_build_from_container_state, h1, h2, h3]
  · intro h1 h2 h3 h4
    simp [update_build_from_container_state, h1, h2, h3, h4]
  · intro h1 h2 h3 h4
    simp [update_build_from_container_state, h1, h2, h3, h4]

/-- Witness for C1 (amended) at a concrete stopped/timed-out container
with a previously captured failure. -/
theorem c1_reconcile_amended_witness :
    update_build_from_container_state (some (.beError "Command failed earlier"))
        (some { Running := some false, ExitCode := some DOCKER_TIMEOUT_EXIT_CODE })
      = some (.beError "Build exited due to time out") :=
  (c1_reconcile_amended (some (.beError "Command failed earlier"))
      { Running := some false, ExitCode := some DOCKER_TIMEOUT_EXIT_CODE }).2.2.1
    rfl rfl

/-- C2 (counterexample): with the testing-image feature flag set and a
per-project manual override present, the resolved image is the project
override, not the testing image — the claimed "testing flag beats
everything" precedence fails. -/
theorem c2_image_precedence_counterexample :
    resolveContainerImage "readthedocs/build:latest"
        { has_testing_feature := true, container_image := some "custom/image:v1" } none
      ≠ "readthedocs/build:testing"
    ∧ resolveContainerImage "readthedocs/build:latest"
        { has_testing_feature := true, container_image := some "custom/image:v1" } none
      = "custom/image:v1" := by decide

/-- C2 (amended): the resolved container image follows the precedence
(highest wins) per-project manual override > per-build configuration
override > testing-image feature flag > environment default; the
memory/time limits independently prefer the project override over the
environment default. -/
theorem c2_resolution_amended (defaultImage : String) (project : ProjectInfo)
    (config : Option BuildConfig) (defaultMem : Option String) (defaultTime : Option Int) :
    (∀ pimg, project.container_image = some pimg →
        resolveContainerImage defaultImage project config = pimg)
    ∧ (project.container_image = none →
        ∀ di, configDockerImage config = some di →
          resolveContainerImage defaultImage project config = di)
    ∧ (project.container_image = none → configDockerImage config = none →
        project.has_testing_feature = true →
        resolveContainerImage defaultImage project config = "readthedocs/build:testing")
    ∧ (project.container_image = none → configDockerImage config = none →
        project.has_testing_feature = false →
        resolveContainerImage defaultImage project config = defaultImage)
    ∧ (∀ m, project.container_mem_limit = some m →
        resolveMemLimit defaultMem project = some m)
    ∧ (project.container_mem_limit = none →
        resolveMemLimit defaultMem project = defaultMem)
    ∧ (∀ t, project.container_time_limit = some t →
        resolveTimeLimit defaultTime project = some t)
    ∧ (project.container_time_limit = none →
        resolveTimeLimit defaultTime project = defaultTime) := by
  refine ⟨?_, ?_, ?_, ?_, ?_, ?_, ?_, ?_⟩
  · intro pimg h
    simp [resolveContainerImage, h]
  · intro h di hdi
    cases config with
    | none => simp [configDockerImage] at hdi
    | some c =>
      simp [configDockerImage] at hdi
      simp [resolveContainerImage, h, hdi]
  · intro h hdi ht
    cases config with
    | none => simp [resolveContainerImage, h, ht]
    | some c =>
      simp [configDockerImage] at hdi
      simp [resolveContainerImage, h, hdi, ht]
  · intro h hdi ht
    cases config with
    | none => simp [resolveContainerImage, h, ht]
    | some c =>
      simp [configDockerImage] at hdi
      simp [resolveContainerImage, h, hdi, ht]
  · intro m h
    simp [resolveMemLimit, h]
  · intro h
    simp [resolveMemLimit, h]
  · intro t h
    simp [resolveTimeLimit, h]
  · intro h
    simp [resolveTimeLimit, h]

/-- Witness for C2 (amended): the project override wins at a concrete
instance. -/
theorem c2_resolution_amended_witness :
    resolveContainerImage "readthedocs/build:latest"
        { has_testing_feature := true, container_image := some "custom/image:v1" }
        (some { docker_image := some "config/image:v2" })
      = "custom/image:v1" :=
  (c2_resolution_amended "readthedocs/build:latest"
      { has_testing_feature := true, container_image := some "custom/image:v1" }
      (some { docker_image := some "config/image:v2" }) none none).1
    "custom/image:v1" rfl

/-- C3 (counterexample): in the two-command scenario (first exits 0,
second exits 2, default recorded non-warn-only policy) exactly one `PUT`
of the build record is issued, but its error text is empty — the command
failure unwinds as `BuildEnvironmentWarning`, which `handle_exception`
does not store as the failure, so `update_build` leaves `error` blank. -/
theorem c3_error_text_counterexample :
    scenarioCalls.countP isPutBuild = 1
    ∧ scenarioCalls.filterMap putErrorOf = [""] := by decide

/-- C3 (amended): in the two-command scenario the environment's `failed`
is true after scope exit, exactly the two commands are recorded, and
exactly one `PUT` of the build record is issued — with empty error text,
success flag false and exit code 2. -/
theorem c3_scenario_amended :
    envFailed scenarioFinalEnv = true
    ∧ scenarioFinalEnv.commands.length = 2
    ∧ scenarioCalls.countP isPutBuild = 1
    ∧ scenarioCalls.filterMap putErrorOf = [""]
    ∧ scenarioFinalEnv.build.map BuildRecord.success = some (some false)
    ∧ scenarioFinalEnv.build.map BuildRecord.exit_code = some (some 2) := by decide

/-- C4 (counterexample): an 11-byte output against a 10-byte budget: the
input exceeds the ceiling, yet the sanitized result is longer than the
ceiling in bytes (the truncation notice is prepended on top of the kept
tail). -/
theorem c4_ceiling_counterexample :
    ((List.replicate 11 97).length : Int) > ((512 * 1024 + 10 : Nat) : Int) - 512 * 1024
    ∧ ¬ utf8Len (sanitize_output (512 * 1024 + 10) (List.replicate 11 97))
        ≤ (512 * 1024 + 10) - 512 * 1024 := by decide

/-- C4 (amended): sanitized output never contains NUL characters; when the
input's byte length exceeds the ceiling (storage limit minus the reserved
512KiB margin, assumed positive), the result is the truncation notice
naming the exact byte budget followed by at most ceiling-many characters
that form a suffix of the NUL-stripped decoded output — so the result
exceeds the ceiling only by the length of the notice itself. -/
theorem c4_sanitize_amended (size : Nat) (out : List Nat)
    (hsize : 512 * 1024 < size) :
    (∀ c ∈ sanitize_output size out, c ≠ nulChar)
    ∧ ((out.length : Int) > (size : Int) - 512 * 1024 →
        sanitize_output size out
            = truncationNotice ((size : Int) - 512 * 1024)
              ++ pySliceFrom ((utf8DecodeReplace out).filter (fun c => c != nulChar))
                  (-((size : Int) - 512 * 1024))
          ∧ (pySliceFrom ((utf8DecodeReplace out).filter (fun c => c != nulChar))
                  (-((size : Int) - 512 * 1024))).length ≤ size - 512 * 1024
          ∧ List.IsSuffix
              (pySliceFrom ((utf8DecodeReplace out).filter (fun c => c != nulChar))
                  (-((size : Int) - 512 * 1024)))
              ((utf8DecodeReplace out).filter (fun c => c != nulChar))) := by
  have hneg : -((size : Int) - 512 * 1024) < 0 := by omega
  by_cases hlen : (out.length : Int) > (size : Int) - 512 * 1024
  · have hmain : sanitize_output size out
        = truncationNotice ((size : Int) - 512 * 1024)
          ++ pySliceFrom ((utf8DecodeReplace out).filter (fun c => c != nulChar))
              (-((size : Int) - 512 * 1024)) := by
      simp only [sanitize_output]
      rw [if_pos hlen]
    refine ⟨?_, fun _ => ⟨hmain, ?_, ?_⟩⟩
    · intro c hc
      rw [hmain] at hc
      rcases List.mem_append.mp hc with h | h
      · exact truncationNotice_ne_nul _ c h
      · unfold pySliceFrom at h
        rw [if_pos hneg] at h
        exact filter_ne_nul _ c (List.mem_of_mem_drop h)
    · unfold pySliceFrom
      rw [if_pos hneg, List.length_drop]
      omega
    · unfold pySliceFrom
      rw [if_pos hneg]
      exact List.drop_suffix _ _
  · have hmain : sanitize_output size out
        = (utf8DecodeReplace out).filter (fun c => c != nulChar) := by
      simp only [sanitize_output]
      rw [if_neg hlen]
    constructor
    · intro c hc
      rw [hmain] at hc
      exact filter_ne_nul _ c hc
    · intro h
      exact absurd h hlen

/-- Witness for C4 (amended) on the concrete 11-byte input over a 10-byte
budget. -/
theorem c4_sanitize_amended_witness :
    sanitize_output (512 * 1024 + 10) (List.replicate 11 97)
        = truncationNotice (((512 * 1024 + 10 : Nat) : Int) - 512 * 1024)
          ++ pySliceFrom
              ((utf8DecodeReplace (List.replicate 11 97)).filter (fun c => c != nulChar))
              (-(((512 * 1024 + 10 : Nat) : Int) - 512 * 1024))
    ∧ (pySliceFrom
          ((utf8DecodeReplace (List.replicate 11 97)).filter (fun c => c != nulChar))
          (-(((512 * 1024 + 10 : Nat) : Int) - 512 * 1024))).length
        ≤ (512 * 1024 + 10) - 512 * 1024
    ∧ List.IsSuffix
        (pySliceFrom
          ((utf8DecodeReplace (List.replicate 11 97)).filter (fun c => c != nulChar))
          (-(((512 * 1024 + 10 : Nat) : Int) - 512 * 1024)))
        ((utf8DecodeReplace (List.replicate 11 97)).filter (fun c => c != nulChar)) :=
  (c4_sanitize_amended (512 * 1024 + 10) (List.replicate 11 97) (by omega)).2
    (by decide)

/-- The exception handler reports handling exactly when an exception was
raised. -/
theorem handle_exception_snd (env : BuildEnvState) (exc : Option Exc) :
    (handle_exception env exc).2 = exc.isSome := by
  cases exc with
  | none => rfl
  | some e =>
    simp only [handle_exception]
    split <;> rfl

/-- The base scope exit returns `True` (suppressing the exception) exactly
when an exception was raised inside the scope. -/
theorem buildEnvExit_snd (env : BuildEnvState) (exc : Option Exc) (elapsed : Int) :
    (buildEnvExit env exc elapsed).2.1 = exc.isSome := by
  unfold buildEnvExit
  rcases h : handle_exception env exc with ⟨env1, handled⟩
  rcases h2 : update_build env1 BUILD_STATE_FINISHED elapsed with ⟨env2, calls⟩
  simp only [h, h2]
  have hs := handle_exception_snd env exc
  rw [h] at hs
  exact hs

/-- A teardown failure of the `BuildEnvironmentError` class is converted
into a completed scope exit (adopting the error when none was incoming). -/
theorem tearHandleErr_be (env : BuildEnvState) (e : Exc) (excIn : Option Exc)
    (elapsed : Int) (hbe : isBEErrorClass e = true) :
    tearHandleErr env e excIn elapsed
      = .ok (buildEnvExit env (if excIn.isNone then some e else excIn) elapsed) := by
  unfold tearHandleErr
  rw [if_pos hbe]

/-- The adopted scope exception is present whenever the incoming one was. -/
theorem tearHandleErr_handled (env : BuildEnvState) (e : Exc) (excIn : Option Exc)
    (elapsed : Int) (hbe : isBEErrorClass e = true) :
    (exitHandled (tearHandleErr env e excIn elapsed)).isSome = true
    ∧ (excIn.isSome = true → exitHandled (tearHandleErr env e excIn elapsed) = some true) := by
  rw [tearHandleErr_be env e excIn elapsed hbe]
  have hs := buildEnvExit_snd env (if excIn.isNone then some e else excIn) elapsed
  rcases hx : buildEnvExit env (if excIn.isNone then some e else excIn) elapsed
    with ⟨env2, handled, calls⟩
  rw [hx] at hs
  constructor
  · simp [exitHandled]
  · intro hin
    have hsome : (if excIn.isNone then some e else excIn).isSome = true := by
      cases excIn <;> simp_all
    simp only [exitHandled]
    have h1 : handled = (if excIn.isNone then some e else excIn).isSome := hs
    rw [h1, hsome]

/-- With only caught error classes from the client/kill/remove steps, the
teardown tail completes the scope exit without re-raising, handling any
incoming exception. -/
theorem dockerExitRest_benign (env : BuildEnvState) (beh : TeardownBehavior)
    (excIn : Option Exc) (elapsed : Int)
    (hCli : (match beh.clientOk with
             | .ok _ => true
             | .error e => isBEErrorClass e) = true)
    (hKill : (match beh.kill with
              | .ok _ => true
              | .error e => isDockerAPIClass e) = true)
    (hRem : (match beh.remove with
             | .ok _ => true
             | .error e =>
               isDockerAPIClass e || e == .connectionError || e == .readTimeout) = true) :
    (exitHandled (dockerExitRest env beh excIn elapsed)).isSome = true
    ∧ (excIn.isSome = true →
        exitHandled (dockerExitRest env beh excIn elapsed) = some true) := by
  unfold dockerExitRest
  cases hc : beh.clientOk with
  | error e =>
    rw [hc] at hCli
    exact tearHandleErr_handled env e excIn elapsed hCli
  | ok u =>
    have hkill : (match beh.kill with
        | .ok _ => (none : Option Exc)
        | .error e => if isDockerAPIClass e then none else some e) = none := by
      cases hk : beh.kill with
      | ok _ => rfl
      | error e =>
        rw [hk] at hKill
        simp at hKill
        simp [hKill]
    have hrem : (match beh.remove with
        | .ok _ => (none : Option Exc)
        | .error e =>
          if isDockerAPIClass e || e == Exc.connectionError || e == Exc.readTimeout then
            none
          else some e) = none := by
      cases hr : beh.remove with
      | ok _ => rfl
      | error e =>
        rw [hr] at hRem
        have hcond : (isDockerAPIClass e || e == Exc.connectionError
            || e == Exc.readTimeout) = true := by
          simpa using hRem
        simp [hcond]
    simp only [hkill, hrem]
    have hs := buildEnvExit_snd env excIn elapsed
    rcases hx : buildEnvExit env excIn elapsed with ⟨env2, handled, calls⟩
    rw [hx] at hs
    constructor
    · simp [exitHandled]
    · intro hin
      simp only [exitHandled]
      have h1 : handled = excIn.isSome := hs
      rw [h1, hin]

/-- With only caught error classes from every teardown engine call, the
Docker scope exit completes without re-raising and handles any incoming
exception. -/
theorem dockerExit_benign (env : BuildEnvState) (beh : TeardownBehavior)
    (excIn : Option Exc) (elapsed : Int) (hb : tearBenign beh = true) :
    (exitHandled (dockerExitModel env beh excIn elapsed)).isSome = true
    ∧ (excIn.isSome = true →
        exitHandled (dockerExitModel env beh excIn elapsed) = some true) := by
  unfold tearBenign at hb
  simp only [Bool.and_eq_true] at hb
  obtain ⟨⟨⟨hIns, hCli⟩, hKill⟩, hRem⟩ := hb
  unfold dockerExitModel
  cases hi : beh.inspect with
  | ok st =>
    simp only [containerStateModel]
    exact dockerExitRest_benign _ beh excIn elapsed hCli hKill hRem
  | error e =>
    rw [hi] at hIns
    simp only [containerStateModel]
    by_cases hd : isDockerAPIClass e = true
    · rw [if_pos hd]
      exact dockerExitRest_benign _ beh excIn elapsed hCli hKill hRem
    · rw [if_neg hd]
      have hbe : isBEErrorClass e = true := by
        simp only [Bool.or_eq_true] at hIns
        rcases hIns with h | h
        · exact absurd h hd
        · exact h
      exact tearHandleErr_handled env e excIn elapsed hbe

/-- Under a benign teardown, the entry-failure pattern re-raises exactly
the original exception. -/
theorem enterExitReraise_benign (env : BuildEnvState) (tear : TeardownBehavior)
    (e : Exc) (elapsed : Int) (ht : tearBenign tear = true) :
    (enterExitReraise env tear e elapsed).1 = .error e := by
  unfold enterExitReraise
  have h := (dockerExit_benign env tear (some e) elapsed ht).1
  rcases hd : dockerExitModel env tear (some e) elapsed with x | ⟨env2, handled, calls⟩
  · rw [hd] at h
    simp [exitHandled] at h
  · rfl

/-- The provisioning step always records that create was called. -/
theorem enterCreateStep_created (env : BuildEnvState) (beh : EnterBehavior)
    (elapsed : Int) : (enterCreateStep env beh elapsed).2.1 = true := by
  unfold enterCreateStep
  rcases hc : createContainerModel (env.build.map BuildRecord.id) beh.createRaw with e | u
  · rcases hr : enterExitReraise env beh.tear e elapsed with ⟨r, calls⟩
    simp [hc, hr]
  · simp [hc]

/-- Recorded commands fail exactly when they are not successful, so the
any-failed test is the complement of the all-successful test. -/
theorem any_failed_eq (l : List BuildCmd) :
    l.any cmdFailed = !l.all cmdSuccessful := by
  induction l with
  | nil => rfl
  | cons c t ih => simp [List.any_cons, List.all_cons, cmdFailed, ih, Bool.not_and]

/-- C5 (counterexample): an exception raised inside the Docker scope does
not suppress teardown exceptions — a `ConnectionError` from the kill step
is caught by none of the teardown handlers and propagates out of the
scope exit, so the caller observes an exception from the exit itself. -/
theorem c5_teardown_counterexample :
    dockerExitModel scenarioEnv0
        { inspect := .ok {}, clientOk := .ok (), kill := .error .connectionError
        , remove := .ok () }
        (some (.other "exception raised inside the scope")) 0
      = .error .connectionError := by decide

/-- C5 (amended): every exception raised inside the scope is intercepted
by the exit handler and converted into state rather than re-raised — for
the base environment unconditionally, and for the Docker variant provided
the teardown engine calls fail only with the classes each step catches
(API errors for inspect, environment errors for client creation, API/
not-found errors for kill, those plus connection/read-timeout for
remove); an engine connection error raised by the state inspection or the
kill step instead propagates out of the Docker scope exit. -/
theorem c5_swallow_amended (env : BuildEnvState) (beh : TeardownBehavior)
    (excIn : Option Exc) (elapsed : Int) (hb : tearBenign beh = true) :
    (exitHandled (dockerExitModel env beh excIn elapsed)).isSome = true
    ∧ (excIn.isSome = true →
        exitHandled (dockerExitModel env beh excIn elapsed) = some true)
    ∧ (buildEnvExit env excIn elapsed).2.1 = excIn.isSome :=
  ⟨(dockerExit_benign env beh excIn elapsed hb).1,
   (dockerExit_benign env beh excIn elapsed hb).2,
   buildEnvExit_snd env excIn elapsed⟩

/-- Witness for C5 (amended): a concrete healthy teardown with an
exception raised inside the scope. -/
theorem c5_swallow_amended_witness :
    (exitHandled (dockerExitModel scenarioEnv0 tearAllOk
        (some (.other "inner")) 0)).isSome = true
    ∧ exitHandled (dockerExitModel scenarioEnv0 tearAllOk
        (some (.other "inner")) 0) = some true :=
  ⟨(c5_swallow_amended scenarioEnv0 tearAllOk (some (.other "inner")) 0 (by decide)).1,
   (c5_swallow_amended scenarioEnv0 tearAllOk (some (.other "inner")) 0 (by decide)).2.1
     rfl⟩

/-- C6: `successful` and `failed` are never both true; both are false
while the build record is non-terminal; once terminal exactly one holds;
and `successful` holds iff the record is terminal, no top-level failure
was captured, and every recorded command succeeded. -/
theorem c6_verdict_invariant (env : BuildEnvState)
    (hset : ∀ c ∈ env.commands, c.exit_code.isSome = true) :
    (¬ (envSuccessful env = true ∧ envFailed env = true))
    ∧ (envDone env = false → envSuccessful env = false ∧ envFailed env = false)
    ∧ (envDone env = true → (envSuccessful env = true ↔ envFailed env = false))
    ∧ (envSuccessful env = true ↔
        envDone env = true ∧ env.failure = none
          ∧ ∀ c ∈ env.commands, cmdSuccessful c = true) := by
  have hany := any_failed_eq env.commands
  unfold envSuccessful envFailed
  cases hdone : envDone env with
  | false => simp
  | true =>
    rw [hany]
    cases hfo : env.failure with
    | none =>
      cases hall : env.commands.all cmdSuccessful with
      | false =>
        have hexists : ∃ x ∈ env.commands, cmdSuccessful x = false := by
          have hy : env.commands.any cmdFailed = true := by
            rw [hany, hall]
            rfl
          obtain ⟨x, hx, hfx⟩ := List.any_eq_true.mp hy
          exact ⟨x, hx, by simpa [cmdFailed] using hfx⟩
        simp [hall]
        exact hexists
      | true =>
        simp [hall]
        exact List.all_eq_true.mp hall
    | some e =>
      cases hall : env.commands.all cmdSuccessful with
      | false => simp [hall]
      | true => simp [hall]

/-- Witness for C6 at a terminal build with one successful command. -/
theorem c6_verdict_invariant_witness :
    envSuccessful
      { record := true, update_on_success := true, failure := none
      , commands := [{ command := "ok", exit_code := some 0 }]
      , build := some { id := 1, state := "finished" } } = true :=
  (c6_verdict_invariant
      { record := true, update_on_success := true, failure := none
      , commands := [{ command := "ok", exit_code := some 0 }]
      , build := some { id := 1, state := "finished" } }
      (by decide)).2.2.2.mpr (by decide)

/-- C7: with the engine reporting a container with the derived name, a
`Running=true` report makes entry raise the hard lock-contention error
without ever calling the provisioning create step; a stopped container is
removed best-effort before provisioning, with engine/connection errors
from that cleanup swallowed (create is still reached). -/
theorem c7_lock_contention (env : BuildEnvState) (beh : EnterBehavior)
    (elapsed : Int) (st : ContainerState) (hins : beh.inspect = .ok st)
    (htear : tearBenign beh.tear = true) :
    (st.Running = some true →
      (dockerEnterModel env beh elapsed).2.1 = false
      ∧ (dockerEnterModel env beh elapsed).1 = .error lockContentionExc)
    ∧ (st.Running ≠ some true → staleRemoveEngineErr beh.removeStale = true →
        (dockerEnterModel env beh elapsed).2.1 = true)
    ∧ (st.Running ≠ some true → beh.removeStale = .ok () →
        (dockerEnterModel env beh elapsed).2.1 = true) := by
  unfold dockerEnterModel
  rw [hins]
  simp only [containerStateModel]
  refine ⟨?_, ?_, ?_⟩
  · intro hrun
    have hbeq : (st.Running == some true) = true := by simp [hrun]
    rw [hbeq]
    simp only [if_true]
    have hr := enterExitReraise_benign
        { env with failure := some lockContentionExc
                 , build := env.build.map (fun b => { b with state := BUILD_STATE_FINISHED }) }
        beh.tear lockContentionExc elapsed htear
    rcases her : enterExitReraise
        { env with failure := some lockContentionExc
                 , build := env.build.map (fun b => { b with state := BUILD_STATE_FINISHED }) }
        beh.tear lockContentionExc elapsed with ⟨r, calls⟩
    rw [her] at hr
    refine ⟨by simp [her], ?_⟩
    simp only [her]
    exact hr
  · intro hrun hstale
    have hbeq : (st.Running == some true) = false := by
      simpa [beq_eq_false_iff_ne] using hrun
    rw [hbeq]
    simp only [Bool.false_eq_true, if_false]
    cases hrs : beh.removeStale with
    | ok u =>
      rw [hrs] at hstale
      simp [staleRemoveEngineErr] at hstale
    | error e =>
      rw [hrs] at hstale
      have hor : (isDockerAPIClass e || e == Exc.connectionError) = true := by
        simpa [staleRemoveEngineErr] using hstale
      simp only [staleRemovalStep]
      rw [if_pos hor]
      exact enterCreateStep_created env beh elapsed
  · intro hrun hok
    have hbeq : (st.Running == some true) = false := by
      simpa [beq_eq_false_iff_ne] using hrun
    rw [hbeq]
    simp only [Bool.false_eq_true, if_false]
    rw [hok]
    simp only [staleRemovalStep]
    exact enterCreateStep_created env beh elapsed

/-- Witness for C7: a concrete running-container collision on a healthy
engine never reaches the create step. -/
theorem c7_lock_contention_witness :
    (dockerEnterModel scenarioEnv0 enterBehRunning 0).2.1 = false
    ∧ (dockerEnterModel scenarioEnv0 enterBehRunning 0).1 = .error lockContentionExc :=
  (c7_lock_contention scenarioEnv0 enterBehRunning 0 { Running := some true }
      rfl (by decide)).1 rfl

/-- C8: a command run with `record_as_success=true` that exits non-zero
has recording and warn-only forced on, is persisted with exit code 0 (the
code is zeroed before serialization), and raises no environment-level
failure from the run, whatever the caller's warn-only setting. -/
theorem c8_record_as_success (env : BuildEnvState) (cmdStr : String)
    (outcome : RunOutcome) (record? : Option Bool) (warn_only0 : Bool)
    (hfail : outcome.exit_code ≠ some 0) :
    (run_command_class env cmdStr outcome record? warn_only0 true).effRecord = true
    ∧ (run_command_class env cmdStr outcome record? warn_only0 true).effWarnOnly = true
    ∧ (run_command_class env cmdStr outcome record? warn_only0 true).raised = none
    ∧ (run_command_class env cmdStr outcome record? warn_only0 true).cmd.exit_code = some 0
    ∧ (run_command_class env cmdStr outcome record? warn_only0 true).calls
        = [APICall.postCommand (env.build.map BuildRecord.id) cmdStr (some 0)] := by
  simp [run_command_class, cmdFailed, cmdSuccessful]

/-- Witness for C8 at a concrete exit-2 command. -/
theorem c8_record_as_success_witness :
    (run_command_class scenarioEnv0 "check" { exit_code := some 2, output := some "" }
        none false true).raised = none
    ∧ (run_command_class scenarioEnv0 "check" { exit_code := some 2, output := some "" }
        none false true).cmd.exit_code = some 0
    ∧ (run_command_class scenarioEnv0 "check" { exit_code := some 2, output := some "" }
        none false true).calls = [APICall.postCommand (some 99) "check" (some 0)] :=
  ⟨(c8_record_as_success scenarioEnv0 "check" { exit_code := some 2, output := some "" }
      none false (by decide)).2.2.1,
   (c8_record_as_success scenarioEnv0 "check" { exit_code := some 2, output := some "" }
      none false (by decide)).2.2.2.1,
   (c8_record_as_success scenarioEnv0 "check" { exit_code := some 2, output := some "" }
      none false (by decide)).2.2.2.2⟩

/-- C9: when the engine-reported exit code is the OOM sentinel, or it is 1
with `Killed` in the last 15 lines of the sanitized output, the
memory-exhaustion notice is appended to the output while the stored exit
code remains exactly as reported. -/
theorem c9_oom_notice (size : Nat) (bytes : List Nat) (code : Int)
    (h : code = DOCKER_OOM_EXIT_CODE
        ∨ (code = 1 ∧ killedInLast15 (sanitize_output size bytes) = true)) :
    dockerCmdRun size (.ok (bytes, code))
      = .ok (some code, some (sanitize_output size bytes ++ oomNotice)) := by
  unfold dockerCmdRun
  rcases h with h | ⟨h1, h2⟩
  · simp [h]
  · simp [h1, h2]

/-- Witness for C9: a `Killed` output line with exit code 1 gets the
notice appended and keeps exit code 1. -/
theorem c9_oom_notice_witness :
    dockerCmdRun (2 * 1024 * 1024) (.ok ([75, 105, 108, 108, 101, 100], 1))
      = .ok (some 1, some (sanitize_output (2 * 1024 * 1024)
          [75, 105, 108, 108, 101, 100] ++ oomNotice)) :=
  c9_oom_notice (2 * 1024 * 1024) [75, 105, 108, 108, 101, 100] 1
    (Or.inr ⟨rfl, by decide⟩)

/-- The copy-and-pop of `run_command_class` leaves every previously
allocated dictionary unchanged and never lowers the allocation bound. -/
theorem runCommandClassEnvPrep_frame (h : Heap) (sharedRef r : Nat)
    (hr : r < h.next) :
    (runCommandClassEnvPrep h sharedRef).1.read r = h.read r
    ∧ h.next ≤ (runCommandClassEnvPrep h sharedRef).1.next := by
  unfold runCommandClassEnvPrep
  simp only [Heap.alloc, Heap.write, Heap.read]
  constructor
  · simp [show ¬ r = h.next by omega]
  · omega

/-- The constructor copy of `BuildCommand.__init__` leaves every
previously allocated dictionary unchanged and never lowers the allocation
bound. -/
theorem buildCommandInitEnv_frame (h : Heap) (envArgRef r : Nat)
    (hr : r < h.next) :
    (buildCommandInitEnv h envArgRef).1.read r = h.read r
    ∧ h.next ≤ (buildCommandInitEnv h envArgRef).1.next := by
  unfold buildCommandInitEnv
  simp only [Heap.alloc, Heap.read]
  by_cases hc : (dictGet (h.mem envArgRef) "PATH").isSome = true
  · rw [if_pos hc]
    exact ⟨by simp [show ¬ r = h.next by omega], Nat.le_succ _⟩
  · rw [if_neg hc]
    exact ⟨by simp [show ¬ r = h.next by omega], Nat.le_succ _⟩

/-- The execution copy of `BuildCommand.run` (stripping internals and
injecting `PATH`) leaves every previously allocated dictionary
unchanged. -/
theorem buildCommandRunEnv_frame (h : Heap) (storedRef r : Nat)
    (bin_path : Option String) (hostPATH : String) (hr : r < h.next) :
    (buildCommandRunEnv h storedRef bin_path hostPATH).1.read r = h.read r := by
  unfold buildCommandRunEnv
  simp only [Heap.alloc, Heap.write, Heap.read]
  simp [show ¬ r = h.next by omega]

/-- C10: one full recorded run never mutates the caller's
environment-variable mapping (aliased as the environment's shared
mapping): the `run_command_class` copy-and-pop, the constructor copy, and
the execution-time stripping and `PATH` injection all act on fresh
dictionaries. -/
theorem c10_env_not_mutated (h : Heap) (sharedRef : Nat) (hostPATH : String)
    (halloc : sharedRef < h.next) :
    (commandEnvPipeline h sharedRef hostPATH).read sharedRef = h.read sharedRef := by
  unfold commandEnvPipeline
  have f1 := runCommandClassEnvPrep_frame h sharedRef sharedRef halloc
  have hlt1 : sharedRef < (runCommandClassEnvPrep h sharedRef).1.next :=
    Nat.lt_of_lt_of_le halloc f1.2
  have f2 := buildCommandInitEnv_frame (runCommandClassEnvPrep h sharedRef).1
    (runCommandClassEnvPrep h sharedRef).2.1 sharedRef hlt1
  have hlt2 : sharedRef
      < (buildCommandInitEnv (runCommandClassEnvPrep h sharedRef).1
          (runCommandClassEnvPrep h sharedRef).2.1).1.next :=
    Nat.lt_of_lt_of_le hlt1 f2.2
  cases hs : (buildCommandInitEnv (runCommandClassEnvPrep h sharedRef).1
      (runCommandClassEnvPrep h sharedRef).2.1).2 with
  | none =>
    show (buildCommandInitEnv (runCommandClassEnvPrep h sharedRef).1
        (runCommandClassEnvPrep h sharedRef).2.1).1.read sharedRef = h.read sharedRef
    rw [f2.1, f1.1]
  | some s =>
    show (buildCommandRunEnv
        (buildCommandInitEnv (runCommandClassEnvPrep h sharedRef).1
          (runCommandClassEnvPrep h sharedRef).2.1).1
        s (runCommandClassEnvPrep h sharedRef).2.2 hostPATH).1.read sharedRef
      = h.read sharedRef
    rw [buildCommandRunEnv_frame _ s sharedRef _ hostPATH hlt2, f2.1, f1.1]

/-- Witness for C10 on a concrete heap holding one mapping with a
`BIN_PATH` entry. -/
theorem c10_env_not_mutated_witness :
    (commandEnvPipeline c10Heap 0 "/usr/bin").read 0 = c10Heap.read 0 :=
  c10_env_not_mutated c10Heap 0 "/usr/bin" (by decide)

end BuildEnvironments
